import Mathlib

/-!
Verification model of the wasender backend (Junaid-Bharwana/wasender).

The repository contains four server variants in two files:
- `src/server.js`, first half: whatsapp-web.js variant (modelled in namespace `WWeb`);
- `src/server.js`, second half: Baileys variant (modelled in namespace `Baileys`,
  definitions suffixed `ServerJs` where the two Baileys variants differ);
- `src/unnamed/part_000`, first half: older whatsapp-web.js variant
  (its `cleanup` is modelled as `WWeb.cleanupPart000`);
- `src/unnamed/part_000`, second half: Baileys variant with a 5000 ms
  reconnect timer (definitions suffixed `Part000` where the variants differ).

JavaScript `Map` objects are modelled as association lists with the operations
the code uses (`get`, `set`, `delete`, `has`, `size`).  Handlers are pure state
transformers; external fallible operations (transport logout, transport send,
credential-file removal) take explicit failure flags; asynchronous interleaving
of `cleanup` is modelled by an explicit small-step scheduler.
-/

namespace Wasender

/-- Model of a JavaScript `Map` keyed by strings: an association list. -/
abbrev JsMap (α : Type) := List (String × α)

/-- Model of `Map.prototype.get` (returning `undefined` as `none`). -/
def mapGet {α : Type} : JsMap α → String → Option α
  | [], _ => none
  | (k', v) :: rest, k => if k' = k then some v else mapGet rest k

/-- Model of `Map.prototype.delete` (removing the entry for the key). -/
def mapDelete {α : Type} : JsMap α → String → JsMap α
  | [], _ => []
  | (k', v) :: rest, k =>
      if k' = k then mapDelete rest k else (k', v) :: mapDelete rest k

/-- Model of `Map.prototype.has`. -/
def mapHas {α : Type} (m : JsMap α) (k : String) : Bool :=
  (mapGet m k).isSome

/-- Model of `Map.prototype.set`.  Insertion order is irrelevant to every
property proved here, so the updated binding is placed at the front. -/
def mapSet {α : Type} (m : JsMap α) (k : String) (v : α) : JsMap α :=
  (k, v) :: mapDelete m k

theorem mapGet_delete {α : Type} (m : JsMap α) (k k' : String) :
    mapGet (mapDelete m k) k' = if k = k' then none else mapGet m k' := by
  induction m with
  | nil => simp [mapDelete, mapGet]
  | cons p rest ih =>
    obtain ⟨k0, v0⟩ := p
    by_cases h0 : k0 = k
    · subst h0
      by_cases h1 : k0 = k'
      · subst h1; simpa [mapDelete, mapGet] using ih
      · simpa [mapDelete, mapGet, h1] using ih
    · by_cases h1 : k0 = k'
      · subst h1
        have hkk : ¬ k = k0 := fun h => h0 h.symm
        simp [mapDelete, mapGet, h0, hkk]
      · simpa [mapDelete, mapGet, h0, h1] using ih

theorem mapGet_set {α : Type} (m : JsMap α) (k : String) (v : α) (k' : String) :
    mapGet (mapSet m k v) k' = if k = k' then some v else mapGet m k' := by
  by_cases h : k = k'
  · simp [mapSet, mapGet, h]
  · simp [mapSet, mapGet, h, mapGet_delete]

theorem mapGet_set_self {α : Type} (m : JsMap α) (k : String) (v : α) :
    mapGet (mapSet m k v) k = some v := by
  simp [mapGet_set]

theorem mapGet_delete_self {α : Type} (m : JsMap α) (k : String) :
    mapGet (mapDelete m k) k = none := by
  simp [mapGet_delete]

/-- JavaScript truthiness of an optional string (`undefined`, `null` and the
empty string are falsy). -/
def truthyStr : Option String → Bool
  | none => false
  | some s => !s.isEmpty

/-- Model of the JavaScript coercion `String(x)` applied to a request field
that may be absent (`String(undefined)` is the string `undefined`). -/
def jsStringOf : Option String → String
  | none => "undefined"
  | some s => s

/-- Modelled from the spec: the external renderer `QRCode.toDataURL` turns the
raw scannable QR payload into an image-embeddable data URL.  Only two facts
about the renderer are used: the result is a data URL built from the payload,
and it differs from the raw payload itself (it carries the data-URL header). -/
def toDataURL (raw : String) : String :=
  "data:image/png;base64," ++ raw

theorem toDataURL_ne (raw : String) : toDataURL raw ≠ raw := by
  intro h
  have hlen : (toDataURL raw).length = raw.length := congrArg String.length h
  rw [toDataURL, String.length_append] at hlen
  have h22 : ("data:image/png;base64," : String).length = 22 := rfl
  rw [h22] at hlen
  omega

/-- Response of the connect route: 400 for a missing account id, the
already-connected shape, or the Connecting acknowledgement. -/
inductive ConnectResp
  | badRequest
  | alreadyConnected (phone : Option String)
  | connecting
deriving Repr, DecidableEq

/-- Response body of the status route (`none` models the 400 response for a
missing account id). -/
structure StatusResp where
  qr : Option String
  connected : Bool
  authenticating : Bool
  phone : Option String
deriving Repr, DecidableEq

/-- Response of the send route. -/
inductive SendResp
  | badRequest
  | notConnected
  | sent
  | sendFailed
deriving Repr, DecidableEq

/-- Response of the disconnect route. -/
inductive DisconnectResp
  | badRequest
  | success
  | failed
deriving Repr, DecidableEq

/-- Failure flags for the fallible external operations inside `cleanup`:
`client.logout()`, `client.destroy()` and `fs.rmSync` on the session files. -/
structure CleanupFailures where
  logoutFails : Bool
  destroyFails : Bool
  rmFails : Bool
deriving Repr, DecidableEq

/-- One step of the teardown sequence, recorded in the execution trace. -/
inductive CleanupStep
  | logout
  | settle (ms : Nat)
  | destroy
  | removeClient
  | removeQr
  | resetStatus
  | deleteCreds
deriving Repr, DecidableEq

/-- Log lines emitted by the teardown on failure of a step (the `destroy`
failure is swallowed by an empty catch block in the source and produces no
log line). -/
inductive LogEntry
  | logoutFailed
  | rmFailed
deriving Repr, DecidableEq

namespace WWeb

/-- Model of a `whatsapp-web.js` `Client` object.  `instanceId` identifies the
constructed transport instance; `info` is set by the library once the client
is ready and carries the phone identity (`client.info.wid.user`). -/
structure WClient where
  instanceId : Nat
  info : Option String
deriving Repr, DecidableEq

/-- Entry of the `connectionStatus` map.  Plain `{connected, phone}` objects
have no `authenticating` property, which reads as `undefined` (falsy),
modelled by `authenticating := false`. -/
structure ConnStatus where
  connected : Bool
  phone : Option String
  authenticating : Bool
deriving Repr, DecidableEq

/-- Process state of the whatsapp-web.js variant of `src/server.js`:
the three module-level maps, the persisted credential directories, a counter
of constructed transport instances, and a specification-only history of raw
QR payloads received from the transport (`receivedRaws` affects nothing and
exists only so theorems can speak about which payloads arrived). -/
structure WWebState where
  whatsappClients : JsMap WClient
  qrCodes : JsMap String
  connectionStatus : JsMap ConnStatus
  credDirs : List String
  nextInstanceId : Nat
  receivedRaws : List String
deriving Repr, DecidableEq

/-- Fresh process state. -/
def WWebState.init : WWebState := ⟨[], [], [], [], 0, []⟩

/-- Model of `new Client(...)` plus the map writes of the connect route:
constructs a transport instance, stores it and resets the status entry. -/
def createClient (s : WWebState) (clientId : String) : WWebState × ConnectResp :=
  let client : WClient := ⟨s.nextInstanceId, none⟩
  ({ s with
      whatsappClients := mapSet s.whatsappClients clientId client,
      connectionStatus := mapSet s.connectionStatus clientId ⟨false, none, false⟩,
      nextInstanceId := s.nextInstanceId + 1 },
   ConnectResp.connecting)

/-- Model of `POST /api/whatsapp/connect` (whatsapp-web.js variant,
`src/server.js` lines 66 to 156): 400 when the account id is falsy; when a
client exists and `client.info` is set, respond with the current status and
leave the state alone; otherwise construct a new client. -/
def connect (s : WWebState) (account_id : Option String) : WWebState × ConnectResp :=
  if truthyStr account_id = false then (s, ConnectResp.badRequest)
  else
    let clientId := jsStringOf account_id
    match mapGet s.whatsappClients clientId with
    | some existing =>
        match existing.info with
        | some ph => (s, ConnectResp.alreadyConnected (some ph))
        | none => createClient s clientId
    | none => createClient s clientId

/-- Model of the `qr` event handler (`src/server.js` lines 104 to 112): the
raw payload is rendered by `toDataURL` and the rendering is stored in the
`qrCodes` map; the raw payload itself is recorded only in the
specification-only history. -/
def onQr (s : WWebState) (clientId raw : String) : WWebState :=
  { s with
      qrCodes := mapSet s.qrCodes clientId (toDataURL raw),
      receivedRaws := s.receivedRaws ++ [raw] }

/-- Model of the `ready` event handler (`src/server.js` lines 115 to 124)
together with the library mutation that sets `client.info` before the event
fires: the QR entry is deleted and the status entry becomes connected. -/
def onReady (s : WWebState) (clientId : String) (phone : Option String) : WWebState :=
  let clients :=
    match mapGet s.whatsappClients clientId with
    | some c => mapSet s.whatsappClients clientId { c with info := phone }
    | none => s.whatsappClients
  { s with
      whatsappClients := clients,
      qrCodes := mapDelete s.qrCodes clientId,
      connectionStatus := mapSet s.connectionStatus clientId ⟨true, phone, false⟩ }

/-- Model of the `authenticated` event handler (`src/server.js` lines 127 to
132): the current status entry (or the default) gets `authenticating := true`. -/
def onAuthenticated (s : WWebState) (clientId : String) : WWebState :=
  let current := (mapGet s.connectionStatus clientId).getD ⟨false, none, false⟩
  { s with
      connectionStatus :=
        mapSet s.connectionStatus clientId { current with authenticating := true } }

/-- Model of `cleanup` (`src/server.js` lines 381 to 433).  Returns the final
state, the trace of steps executed in order, and the log lines emitted for
failed steps.  Each fallible step sits in its own try/catch in the source, so
no failure aborts the sequence; the `destroy` failure is swallowed silently
(empty catch block), while logout and file-removal failures are logged. -/
def cleanup (s : WWebState) (f : CleanupFailures) (accountId : String) :
    WWebState × List CleanupStep × List LogEntry :=
  let clientId := accountId
  let hasClient := mapHas s.whatsappClients clientId
  let tr1 : List CleanupStep :=
    if hasClient then
      [CleanupStep.logout, CleanupStep.settle 3000,
       CleanupStep.destroy, CleanupStep.settle 2500]
    else []
  let lg1 : List LogEntry :=
    if hasClient && f.logoutFails then [LogEntry.logoutFailed] else []
  let s2 := { s with
      whatsappClients := mapDelete s.whatsappClients clientId,
      qrCodes := mapDelete s.qrCodes clientId,
      connectionStatus :=
        mapSet s.connectionStatus clientId ⟨false, none, false⟩ }
  let (s3, lg3) :=
    if clientId ∈ s2.credDirs then
      if f.rmFails then (s2, [LogEntry.rmFailed])
      else ({ s2 with credDirs := s2.credDirs.filter (· != clientId) },
            ([] : List LogEntry))
    else (s2, [])
  (s3,
   tr1 ++ [CleanupStep.removeClient, CleanupStep.removeQr,
           CleanupStep.resetStatus, CleanupStep.deleteCreds],
   lg1 ++ lg3)

/-- Model of `cleanup` from `src/unnamed/part_000` lines 204 to 236: the
logout call is commented out in that source and there are no settling delays;
the trace is destroy (when a client exists) followed by the map removals, the
status reset and the credential deletion attempt. -/
def cleanupPart000 (s : WWebState) (f : CleanupFailures) (accountId : String) :
    WWebState × List CleanupStep × List LogEntry :=
  let tr1 : List CleanupStep :=
    if mapHas s.whatsappClients accountId then [CleanupStep.destroy] else []
  let s2 := { s with
      whatsappClients := mapDelete s.whatsappClients accountId,
      qrCodes := mapDelete s.qrCodes accountId,
      connectionStatus :=
        mapSet s.connectionStatus accountId ⟨false, none, false⟩ }
  let (s3, lg3) :=
    if accountId ∈ s2.credDirs then
      if f.rmFails then (s2, [LogEntry.rmFailed])
      else ({ s2 with credDirs := s2.credDirs.filter (· != accountId) },
            ([] : List LogEntry))
    else (s2, [])
  (s3,
   tr1 ++ [CleanupStep.removeClient, CleanupStep.removeQr,
           CleanupStep.resetStatus, CleanupStep.deleteCreds],
   lg3)

/-- Model of `GET /api/whatsapp/status` (whatsapp-web.js variant,
`src/server.js` lines 159 to 188).  `connected` is the double check
`client?.info !== undefined`; `phone` is `client.info.wid.user` when
connected, else the stored status phone. -/
def status (s : WWebState) (account_id : Option String) : Option StatusResp :=
  if truthyStr account_id = false then none
  else
    let clientId := jsStringOf account_id
    let qr := mapGet s.qrCodes clientId
    let st := (mapGet s.connectionStatus clientId).getD ⟨false, none, false⟩
    let client := mapGet s.whatsappClients clientId
    let connected := (client.bind WClient.info).isSome
    let phone := if connected then client.bind WClient.info else st.phone
    some { qr := qr, connected := connected,
           authenticating := st.authenticating, phone := phone }

/-- Model of `POST /api/whatsapp/send` (whatsapp-web.js variant,
`src/server.js` lines 191 to 217).  The third component records whether the
transport send (`client.sendMessage`) was invoked;  `transportFails` says
whether that call rejects, in which case the catch block answers 500 without
touching any map. -/
def send (s : WWebState) (account_id phone message : Option String)
    (transportFails : Bool) : WWebState × SendResp × Bool :=
  if !(truthyStr account_id && truthyStr phone && truthyStr message) then
    (s, SendResp.badRequest, false)
  else
    match mapGet s.whatsappClients (jsStringOf account_id) with
    | none => (s, SendResp.notConnected, false)
    | some c =>
        match c.info with
        | none => (s, SendResp.notConnected, false)
        | some _ =>
            if transportFails then (s, SendResp.sendFailed, true)
            else (s, SendResp.sent, true)

/-- Model of `POST /api/whatsapp/disconnect` (whatsapp-web.js variant,
`src/server.js` lines 356 to 378): the route awaits `cleanup` in full and
only then responds, so the response is paired with the post-cleanup state. -/
def disconnect (s : WWebState) (account_id : Option String)
    (f : CleanupFailures) : WWebState × DisconnectResp :=
  if truthyStr account_id = false then (s, DisconnectResp.badRequest)
  else
    let clientId := jsStringOf account_id
    ((cleanup s f clientId).1, DisconnectResp.success)

/-- Closed set of operations driving the whatsapp-web.js state, used to reason
about all reachable states. -/
inductive WEvent
  | connectReq (aid : Option String)
  | qrEv (aid raw : String)
  | readyEv (aid : String) (phone : Option String)
  | authEv (aid : String)
  | authFailureEv (aid : String) (f : CleanupFailures)
  | disconnectedEv (aid : String) (f : CleanupFailures)
  | disconnectReq (aid : Option String) (f : CleanupFailures)
deriving Repr

/-- Applies one event or request to the state.  The `auth_failure` and
`disconnected` handlers call `cleanup` (`src/server.js` lines 135 to 146). -/
def stepEvent (s : WWebState) : WEvent → WWebState
  | WEvent.connectReq aid => (connect s aid).1
  | WEvent.qrEv aid raw => onQr s aid raw
  | WEvent.readyEv aid ph => onReady s aid ph
  | WEvent.authEv aid => onAuthenticated s aid
  | WEvent.authFailureEv aid f => (cleanup s f aid).1
  | WEvent.disconnectedEv aid f => (cleanup s f aid).1
  | WEvent.disconnectReq aid f => (disconnect s aid f).1

/-- Runs a list of events from a state. -/
def runEvents (s : WWebState) : List WEvent → WWebState
  | [] => s
  | e :: rest => runEvents (stepEvent s e) rest

/-- The statements of `cleanup`, split at its suspension points (each `await`
yields to the event loop, letting another in-flight `cleanup` for the same
account run).  `getClient` is the read `whatsappClients.get(clientId)` whose
result the rest of the body uses; when it yields no client the body skips
directly to the map removals. -/
inductive CStep
  | getClient
  | doLogout
  | settle1
  | doDestroy
  | settle2
  | delClient
  | delQr
  | resetStatus
  | rmFiles
deriving Repr, DecidableEq

/-- The body of `cleanup` as a sequence of statements. -/
def cleanupProg : List CStep :=
  [CStep.getClient, CStep.doLogout, CStep.settle1, CStep.doDestroy,
   CStep.settle2, CStep.delClient, CStep.delQr, CStep.resetStatus,
   CStep.rmFiles]

/-- One in-flight invocation of `cleanup`: its program counter into
`cleanupProg` and the client reference captured by `getClient`. -/
structure CThread where
  pc : Nat
  localClient : Option WClient
deriving Repr, DecidableEq

/-- Shared world for interleaved cleanups: the process state plus counters of
the destructive transport calls actually performed. -/
structure CWorld where
  st : WWebState
  logoutCalls : Nat
  destroyCalls : Nat
deriving Repr, DecidableEq

/-- Executes the next statement of one in-flight `cleanup` invocation.
`doLogout` and `doDestroy` operate on the captured client reference and are
counted as destructive calls; map mutations go to the shared state. -/
def cstep (aid : String) (w : CWorld) (t : CThread) : CWorld × CThread :=
  match cleanupProg.get? t.pc with
  | none => (w, t)
  | some st =>
    match st with
    | CStep.getClient =>
        let c := mapGet w.st.whatsappClients aid
        (w, { t with localClient := c, pc := if c.isSome then t.pc + 1 else 5 })
    | CStep.doLogout =>
        ({ w with logoutCalls := w.logoutCalls + 1 }, { t with pc := t.pc + 1 })
    | CStep.settle1 => (w, { t with pc := t.pc + 1 })
    | CStep.doDestroy =>
        ({ w with destroyCalls := w.destroyCalls + 1 }, { t with pc := t.pc + 1 })
    | CStep.settle2 => (w, { t with pc := t.pc + 1 })
    | CStep.delClient =>
        ({ w with st := { w.st with
            whatsappClients := mapDelete w.st.whatsappClients aid } },
         { t with pc := t.pc + 1 })
    | CStep.delQr =>
        ({ w with st := { w.st with qrCodes := mapDelete w.st.qrCodes aid } },
         { t with pc := t.pc + 1 })
    | CStep.resetStatus =>
        ({ w with st := { w.st with
            connectionStatus :=
              mapSet w.st.connectionStatus aid ⟨false, none, false⟩ } },
         { t with pc := t.pc + 1 })
    | CStep.rmFiles =>
        ({ w with st := { w.st with
            credDirs := w.st.credDirs.filter (· != aid) } },
         { t with pc := t.pc + 1 })

/-- Runs two in-flight `cleanup` invocations for the same account under an
explicit schedule (`true` steps the first invocation, `false` the second). -/
def runSched (aid : String) :
    CWorld → CThread → CThread → List Bool → CWorld × CThread × CThread
  | w, a, b, [] => (w, a, b)
  | w, a, b, true :: rest =>
      let (w', a') := cstep aid w a
      runSched aid w' a' b rest
  | w, a, b, false :: rest =>
      let (w', b') := cstep aid w b
      runSched aid w' a b' rest

end WWeb

namespace Baileys

/-- Model of a Baileys socket; `instanceId` identifies the transport
instance constructed by `makeWASocket`. -/
structure Sock where
  instanceId : Nat
deriving Repr, DecidableEq

/-- Entry of the Baileys `connectionStatus` map. -/
structure BStatus where
  connected : Bool
  phone : Option String
deriving Repr, DecidableEq

/-- Process state of the Baileys variants: the `sessions`, `qrCodes` and
`connectionStatus` maps, the persisted credential directories, the outbound
notification calls issued so far, and a counter of constructed sockets. -/
structure BState where
  sessions : JsMap Sock
  qrCodes : JsMap String
  connectionStatus : JsMap BStatus
  credDirs : List String
  notifications : List (String × String)
  nextInstanceId : Nat
deriving Repr, DecidableEq

/-- Fresh process state. -/
def BState.init : BState := ⟨[], [], [], [], [], 0⟩

/-- Modelled from the external Baileys library: the distinguished
`DisconnectReason.loggedOut` status code.  The code only compares close
status codes against it for equality, so its numeric value is irrelevant. -/
def loggedOutCode : Nat := 401

/-- Model of `startSession` (`src/unnamed/part_000` lines 355 to 420,
`src/server.js` lines 541 to 605): constructs a socket via `makeWASocket` and
stores it under the account id.  The `connection.update` handlers registered
by `startSession` are modelled by the `onClose` functions below. -/
def startSession (s : BState) (accountId : String) : BState :=
  { s with
      sessions := mapSet s.sessions accountId ⟨s.nextInstanceId⟩,
      nextInstanceId := s.nextInstanceId + 1 }

/-- Model of `POST /api/whatsapp/connect` (Baileys variants, identical in
`src/server.js` lines 609 to 629 and `src/unnamed/part_000` lines 512 to
532): the early return happens only when a session exists and its status
entry says connected; otherwise `startSession` runs. -/
def connect (s : BState) (account_id : Option String) : BState × ConnectResp :=
  if truthyStr account_id = false then (s, ConnectResp.badRequest)
  else
    let clientId := jsStringOf account_id
    if mapHas s.sessions clientId then
      match mapGet s.connectionStatus clientId with
      | some st =>
          if st.connected then (s, ConnectResp.alreadyConnected st.phone)
          else (startSession s clientId, ConnectResp.connecting)
      | none => (startSession s clientId, ConnectResp.connecting)
    else (startSession s clientId, ConnectResp.connecting)

/-- Reconnection decision recorded by a close event: delays of retries
scheduled through `setTimeout`, and the number of direct (synchronous)
`startSession` invocations. -/
structure RetryDecision where
  scheduled : List Nat
  immediate : Nat
deriving Repr, DecidableEq

/-- Effects common to both close handlers before the reconnect decision:
delete the QR entry and reset the status entry. -/
def onCloseCommon (s : BState) (clientId : String) : BState :=
  { s with
      qrCodes := mapDelete s.qrCodes clientId,
      connectionStatus := mapSet s.connectionStatus clientId ⟨false, none⟩ }

/-- Terminal branch of both close handlers: delete the session, notify the
control plane, remove the credential directory (failures swallowed). -/
def onCloseTerminal (s : BState) (clientId : String) : BState :=
  { s with
      sessions := mapDelete s.sessions clientId,
      notifications := s.notifications ++ [(clientId, "disconnected")],
      credDirs := s.credDirs.filter (· != clientId) }

/-- Model of the `connection.update` close branch of `src/unnamed/part_000`
(lines 390 to 407): a loggedOut status code is terminal; any other code
schedules `startSession` once through `setTimeout(..., 5000)`. -/
def onClosePart000 (s : BState) (clientId : String) (statusCode : Option Nat) :
    BState × RetryDecision :=
  let s1 := onCloseCommon s clientId
  if statusCode = some loggedOutCode then
    (onCloseTerminal s1 clientId, ⟨[], 0⟩)
  else
    (s1, ⟨[5000], 0⟩)

/-- Model of the `connection.update` close branch of `src/server.js`
(lines 576 to 592): a loggedOut status code is terminal; any other code calls
`startSession` directly, with no timer and no delay. -/
def onCloseServerJs (s : BState) (clientId : String) (statusCode : Option Nat) :
    BState × RetryDecision :=
  let s1 := onCloseCommon s clientId
  if statusCode = some loggedOutCode then
    (onCloseTerminal s1 clientId, ⟨[], 0⟩)
  else
    (startSession s1 clientId, ⟨[], 1⟩)

/-- Model of the retry timer firing (`src/unnamed/part_000` line 399): the
callback is `() => startSession(clientId)` and performs no check of any kind
before starting the session again. -/
def retryTimerFire (s : BState) (clientId : String) : BState :=
  startSession s clientId

/-- Model of `GET /api/whatsapp/status` (Baileys variants, `src/server.js`
lines 631 to 649 and `src/unnamed/part_000` lines 534 to 552). -/
def status (s : BState) (account_id : Option String) : Option StatusResp :=
  if truthyStr account_id = false then none
  else
    let clientId := jsStringOf account_id
    let qr := mapGet s.qrCodes clientId
    let st := (mapGet s.connectionStatus clientId).getD ⟨false, none⟩
    some { qr := qr, connected := st.connected,
           authenticating := !st.connected && qr.isNone && mapHas s.sessions clientId,
           phone := st.phone }

/-- Model of `POST /api/whatsapp/send` (Baileys variants, `src/server.js`
lines 651 to 669): the only guard is that a session object exists in the map;
the connection status is not consulted before `sock.sendMessage` runs. -/
def send (s : BState) (account_id phone message : Option String)
    (transportFails : Bool) : BState × SendResp × Bool :=
  if !(truthyStr account_id && truthyStr phone && truthyStr message) then
    (s, SendResp.badRequest, false)
  else
    match mapGet s.sessions (jsStringOf account_id) with
    | none => (s, SendResp.notConnected, false)
    | some _ =>
        if transportFails then (s, SendResp.sendFailed, true)
        else (s, SendResp.sent, true)

/-- Model of `POST /api/whatsapp/disconnect` (Baileys variants,
`src/server.js` lines 742 to 758): when a session exists, `await
sock.logout()` runs first; if it rejects the catch block answers 500 and the
session is never deleted; only when it resolves does the route delete the
session and notify the control plane. -/
def disconnect (s : BState) (account_id : Option String) (logoutFails : Bool) :
    BState × DisconnectResp :=
  let clientId := jsStringOf account_id
  match mapGet s.sessions clientId with
  | some _ =>
      if logoutFails then (s, DisconnectResp.failed)
      else
        ({ s with
            sessions := mapDelete s.sessions clientId,
            notifications := s.notifications ++ [(clientId, "disconnected")] },
         DisconnectResp.success)
  | none =>
      ({ s with notifications := s.notifications ++ [(clientId, "disconnected")] },
       DisconnectResp.success)

end Baileys

/-! Theorems settling the claims. -/

theorem cleanup_state_proj (s : WWeb.WWebState) (f : CleanupFailures)
    (aid : String) :
    (WWeb.cleanup s f aid).1.whatsappClients = mapDelete s.whatsappClients aid ∧
    (WWeb.cleanup s f aid).1.qrCodes = mapDelete s.qrCodes aid ∧
    (WWeb.cleanup s f aid).1.connectionStatus =
      mapSet s.connectionStatus aid ⟨false, none, false⟩ ∧
    (WWeb.cleanup s f aid).1.receivedRaws = s.receivedRaws := by
  unfold WWeb.cleanup
  dsimp only
  split
  · split <;> exact ⟨rfl, rfl, rfl, rfl⟩
  · exact ⟨rfl, rfl, rfl, rfl⟩

theorem cleanupPart000_state_proj (s : WWeb.WWebState) (f : CleanupFailures)
    (aid : String) :
    (WWeb.cleanupPart000 s f aid).1.whatsappClients =
      mapDelete s.whatsappClients aid ∧
    (WWeb.cleanupPart000 s f aid).1.qrCodes = mapDelete s.qrCodes aid ∧
    (WWeb.cleanupPart000 s f aid).1.connectionStatus =
      mapSet s.connectionStatus aid ⟨false, none, false⟩ ∧
    (WWeb.cleanupPart000 s f aid).1.receivedRaws = s.receivedRaws := by
  unfold WWeb.cleanupPart000
  dsimp only
  split
  · split <;> exact ⟨rfl, rfl, rfl, rfl⟩
  · exact ⟨rfl, rfl, rfl, rfl⟩

/-- Example state of the whatsapp-web.js variant with a fully connected
client for account acct1. -/
def exConnectedW : WWeb.WWebState :=
  { whatsappClients := [("acct1", ⟨0, some "15551234567"⟩)],
    qrCodes := [],
    connectionStatus := [("acct1", ⟨true, some "15551234567", false⟩)],
    credDirs := ["acct1"],
    nextInstanceId := 1,
    receivedRaws := [] }

/-- Example state of the whatsapp-web.js variant with a mid-handshake client
(no `info` yet) for account acct1. -/
def exMidHandshakeW : WWeb.WWebState :=
  { whatsappClients := [("acct1", ⟨0, none⟩)],
    qrCodes := [],
    connectionStatus := [("acct1", ⟨false, none, false⟩)],
    credDirs := [],
    nextInstanceId := 1,
    receivedRaws := [] }

/-- Example state of the Baileys variants with a connected session for
account acct1. -/
def exConnectedB : Baileys.BState :=
  { sessions := [("acct1", ⟨0⟩)],
    qrCodes := [],
    connectionStatus := [("acct1", ⟨true, some "15551234567"⟩)],
    credDirs := ["acct1"],
    notifications := [],
    nextInstanceId := 1 }

/-- Example state of the Baileys variants with a mid-handshake session
(awaiting scan: session exists, status not connected) for account acct1. -/
def exMidHandshakeB : Baileys.BState :=
  { sessions := [("acct1", ⟨0⟩)],
    qrCodes := [("acct1", toDataURL "rawScanPayload")],
    connectionStatus := [("acct1", ⟨false, none⟩)],
    credDirs := [],
    notifications := [],
    nextInstanceId := 1 }

/-- C1 counterexample: two rapid connect calls for the same new account id do
NOT produce exactly one transport instance.  Starting from a fresh process,
the first connect constructs client instance 0; the second connect finds the
session mid-handshake (`client.info` unset), falls through the idempotence
check and constructs client instance 1, so two transports are constructed. -/
theorem c1_two_connects_two_transports :
    (WWeb.connect (WWeb.connect WWeb.WWebState.init (some "acct1")).1
        (some "acct1")).1.nextInstanceId = 2 ∧
    ¬ (WWeb.connect (WWeb.connect WWeb.WWebState.init (some "acct1")).1
        (some "acct1")).1.nextInstanceId = 1 := by
  decide

/-- C1 (amended): connect is idempotent only for a Connected session.  In the
whatsapp-web.js variant, when the stored client has `info` set, connect
returns the current status and leaves the state (hence the transport count)
unchanged; when the stored client is still mid-handshake, connect constructs
a second transport instance.  In the Baileys variant, when the status entry
says connected, connect returns the current status without touching the
state; otherwise it starts a fresh socket. -/
theorem c1_connect_idempotent_only_when_connected :
    (∀ (s : WWeb.WWebState) (cid : String) (c : WWeb.WClient) (ph : String),
      cid.isEmpty = false →
      mapGet s.whatsappClients cid = some c → c.info = some ph →
      WWeb.connect s (some cid) = (s, ConnectResp.alreadyConnected (some ph))) ∧
    (∀ (s : WWeb.WWebState) (cid : String) (c : WWeb.WClient),
      cid.isEmpty = false →
      mapGet s.whatsappClients cid = some c → c.info = none →
      (WWeb.connect s (some cid)).1.nextInstanceId = s.nextInstanceId + 1) ∧
    (∀ (s : Baileys.BState) (cid : String) (st : Baileys.BStatus),
      cid.isEmpty = false →
      mapHas s.sessions cid = true →
      mapGet s.connectionStatus cid = some st → st.connected = true →
      Baileys.connect s (some cid) = (s, ConnectResp.alreadyConnected st.phone)) := by
  refine ⟨?_, ?_, ?_⟩
  · intro s cid c ph hne hget hinfo
    simp [WWeb.connect, truthyStr, jsStringOf, hne, hget, hinfo]
  · intro s cid c hne hget hinfo
    simp [WWeb.connect, WWeb.createClient, truthyStr, jsStringOf, hne, hget, hinfo]
  · intro s cid st hne hhas hget hconn
    simp [Baileys.connect, truthyStr, jsStringOf, hne, hhas, hget, hconn]

/-- C1 witness: the amended statement applied to concrete states. -/
theorem c1_witness :
    WWeb.connect exConnectedW (some "acct1") =
      (exConnectedW, ConnectResp.alreadyConnected (some "15551234567")) ∧
    (WWeb.connect exMidHandshakeW (some "acct1")).1.nextInstanceId = 2 ∧
    Baileys.connect exConnectedB (some "acct1") =
      (exConnectedB, ConnectResp.alreadyConnected (some "15551234567")) :=
  ⟨c1_connect_idempotent_only_when_connected.1 exConnectedW "acct1"
      ⟨0, some "15551234567"⟩ "15551234567" (by decide) (by decide) rfl,
   c1_connect_idempotent_only_when_connected.2.1 exMidHandshakeW "acct1"
      ⟨0, none⟩ (by decide) (by decide) rfl,
   c1_connect_idempotent_only_when_connected.2.2 exConnectedB "acct1"
      ⟨true, some "15551234567"⟩ (by decide) (by decide) (by decide) rfl⟩

/-- C2 counterexample: in the Baileys variant of `src/server.js`, a close
event with a non-loggedOut status code does not schedule a retry after the
configured delay: no timer is scheduled at all, `startSession` is invoked
synchronously. -/
theorem c2_serverjs_retry_has_no_delay :
    (Baileys.onCloseServerJs exConnectedB "acct1" (some 428)).2 =
      ⟨[], 1⟩ ∧
    ¬ ((Baileys.onCloseServerJs exConnectedB "acct1" (some 428)).2.scheduled.length
        = 1) := by
  decide

/-- C2 (amended): the loggedOut status code is terminal in both Baileys
variants (no retry in any form, the session is deleted); any other status
code triggers exactly one reconnection attempt, scheduled after a fixed
5000 ms timer in the part_000 variant but invoked immediately with no timer
in the server.js variant. -/
theorem c2_close_retry_rule :
    (∀ (s : Baileys.BState) (cid : String),
      (Baileys.onClosePart000 s cid (some Baileys.loggedOutCode)).2 = ⟨[], 0⟩ ∧
      (Baileys.onCloseServerJs s cid (some Baileys.loggedOutCode)).2 = ⟨[], 0⟩ ∧
      mapGet (Baileys.onClosePart000 s cid (some Baileys.loggedOutCode)).1.sessions
        cid = none ∧
      mapGet (Baileys.onCloseServerJs s cid (some Baileys.loggedOutCode)).1.sessions
        cid = none) ∧
    (∀ (s : Baileys.BState) (cid : String) (sc : Option Nat),
      sc ≠ some Baileys.loggedOutCode →
      (Baileys.onClosePart000 s cid sc).2 = ⟨[5000], 0⟩ ∧
      (Baileys.onCloseServerJs s cid sc).2 = ⟨[], 1⟩) := by
  constructor
  · intro s cid
    refine ⟨?_, ?_, ?_, ?_⟩ <;>
      simp [Baileys.onClosePart000, Baileys.onCloseServerJs,
        Baileys.onCloseCommon, Baileys.onCloseTerminal, mapGet_delete_self]
  · intro s cid sc hne
    constructor <;>
      simp [Baileys.onClosePart000, Baileys.onCloseServerJs,
        Baileys.onCloseCommon, Baileys.onCloseTerminal, hne]

/-- C2 witness: the amended statement applied to a concrete state and a
concrete non-loggedOut status code. -/
theorem c2_witness :
    (Baileys.onClosePart000 exConnectedB "acct1"
        (some Baileys.loggedOutCode)).2 = ⟨[], 0⟩ ∧
    (Baileys.onClosePart000 exConnectedB "acct1" (some 428)).2 = ⟨[5000], 0⟩ ∧
    (Baileys.onCloseServerJs exConnectedB "acct1" (some 428)).2 = ⟨[], 1⟩ :=
  ⟨(c2_close_retry_rule.1 exConnectedB "acct1").1,
   (c2_close_retry_rule.2 exConnectedB "acct1" (some 428) (by decide)).1,
   (c2_close_retry_rule.2 exConnectedB "acct1" (some 428) (by decide)).2⟩

/-- Schedule interleaving two in-flight cleanups: both invocations read the
client from the map (each suspends at its `await client.logout()`), then the
first runs to completion, then the second. -/
def c3Sched : List Bool :=
  [true, false] ++ List.replicate 8 true ++ List.replicate 8 false

/-- Shared world for the interleaved run: the connected example state with a
live client and credential directory for acct1, destructive-call counters at
zero. -/
def c3World : WWeb.CWorld :=
  { st := exConnectedW, logoutCalls := 0, destroyCalls := 0 }

/-- C3 counterexample: two concurrent `cleanup` invocations for the same
account are not serialized and their destructive side effects are not
performed exactly once.  Under the interleaving in which both invocations
read the client before either removes it from the map (exactly what happens
when an explicit disconnect races the `disconnected` event, since each
invocation suspends at its first `await`), `client.logout()` is invoked
twice. -/
theorem c3_destructive_effects_twice :
    (WWeb.runSched "acct1" c3World ⟨0, none⟩ ⟨0, none⟩ c3Sched).1.logoutCalls
      = 2 ∧
    ¬ ((WWeb.runSched "acct1" c3World ⟨0, none⟩ ⟨0, none⟩ c3Sched).1.logoutCalls
      = 1) := by
  decide

/-- C3 (amended): `cleanup` has no serialization guard.  When two concurrent
invocations for one account both pass the client lookup before either
reaches the map-removal statements, both perform the destructive transport
calls — logout and destroy each run twice.  The map removals and status
reset are idempotent, so the final state still has the client and QR entries
removed, the status entry reset, and the credential directory deleted. -/
theorem c3_concurrent_cleanup_double_effects :
    (WWeb.runSched "acct1" c3World ⟨0, none⟩ ⟨0, none⟩ c3Sched).1.logoutCalls
      = 2 ∧
    (WWeb.runSched "acct1" c3World ⟨0, none⟩ ⟨0, none⟩ c3Sched).1.destroyCalls
      = 2 ∧
    mapGet (WWeb.runSched "acct1" c3World ⟨0, none⟩ ⟨0, none⟩
        c3Sched).1.st.whatsappClients "acct1" = none ∧
    mapGet (WWeb.runSched "acct1" c3World ⟨0, none⟩ ⟨0, none⟩
        c3Sched).1.st.qrCodes "acct1" = none ∧
    mapGet (WWeb.runSched "acct1" c3World ⟨0, none⟩ ⟨0, none⟩
        c3Sched).1.st.connectionStatus "acct1" = some ⟨false, none, false⟩ ∧
    (WWeb.runSched "acct1" c3World ⟨0, none⟩ ⟨0, none⟩ c3Sched).1.st.credDirs
      = [] := by
  decide

/-- C4 counterexample: in the Baileys variant, a send for a session that
exists but is mid-handshake (AwaitingScan: session present, status not
connected) does not fail with NotConnectedError — the transport send is
invoked (third component `true`) and the request succeeds. -/
theorem c4_baileys_send_mid_handshake_invokes_transport :
    (Baileys.send exMidHandshakeB (some "acct1") (some "15551234567")
        (some "hi") false).2.2 = true ∧
    ¬ ((Baileys.send exMidHandshakeB (some "acct1") (some "15551234567")
        (some "hi") false).2.1 = SendResp.notConnected) := by
  decide

/-- C4 (amended): in the whatsapp-web.js variant the send guard is
`client.info`, so any account without a Connected client (absent, or present
but mid-handshake) fails with NotConnectedError, with the transport send
never invoked and the state untouched, and a transport-level failure is
reported as an error without mutating any state.  In the Baileys variant the
guard is only session existence: an absent session fails with
NotConnectedError without invoking the transport, but a mid-handshake
session proceeds to invoke the transport send; a transport-level failure is
again reported without mutating state. -/
theorem c4_send_guards :
    (∀ (s : WWeb.WWebState) (aid ph msg : String) (tf : Bool),
      aid.isEmpty = false → ph.isEmpty = false → msg.isEmpty = false →
      (mapGet s.whatsappClients aid = none ∨
        (∃ c, mapGet s.whatsappClients aid = some c ∧ c.info = none)) →
      WWeb.send s (some aid) (some ph) (some msg) tf =
        (s, SendResp.notConnected, false)) ∧
    (∀ (s : WWeb.WWebState) (aid ph msg : String) (c : WWeb.WClient)
        (p : String),
      aid.isEmpty = false → ph.isEmpty = false → msg.isEmpty = false →
      mapGet s.whatsappClients aid = some c → c.info = some p →
      WWeb.send s (some aid) (some ph) (some msg) true =
        (s, SendResp.sendFailed, true)) ∧
    (∀ (s : Baileys.BState) (aid ph msg : String),
      aid.isEmpty = false → ph.isEmpty = false → msg.isEmpty = false →
      mapGet s.sessions aid = none →
      Baileys.send s (some aid) (some ph) (some msg) false =
        (s, SendResp.notConnected, false)) ∧
    (∀ (s : Baileys.BState) (aid ph msg : String) (sock : Baileys.Sock)
        (tf : Bool),
      aid.isEmpty = false → ph.isEmpty = false → msg.isEmpty = false →
      mapGet s.sessions aid = some sock →
      (Baileys.send s (some aid) (some ph) (some msg) tf).2.2 = true ∧
      (Baileys.send s (some aid) (some ph) (some msg) tf).1 = s) := by
  refine ⟨?_, ?_, ?_, ?_⟩
  · intro s aid ph msg tf ha hp hm hcase
    rcases hcase with hnone | ⟨c, hget, hinfo⟩
    · simp [WWeb.send, truthyStr, jsStringOf, ha, hp, hm, hnone]
    · simp [WWeb.send, truthyStr, jsStringOf, ha, hp, hm, hget, hinfo]
  · intro s aid ph msg c p ha hp hm hget hinfo
    simp [WWeb.send, truthyStr, jsStringOf, ha, hp, hm, hget, hinfo]
  · intro s aid ph msg ha hp hm hget
    simp [Baileys.send, truthyStr, jsStringOf, ha, hp, hm, hget]
  · intro s aid ph msg sock tf ha hp hm hget
    cases tf <;>
      simp [Baileys.send, truthyStr, jsStringOf, ha, hp, hm, hget]

/-- C4 witness: the amended statement applied to concrete states — a
mid-handshake whatsapp-web.js client (send refused, transport untouched), a
transport failure on a connected client (error, state unchanged), and a
mid-handshake Baileys session (transport invoked, state unchanged). -/
theorem c4_witness :
    WWeb.send exMidHandshakeW (some "acct1") (some "15551234567") (some "hi")
        false = (exMidHandshakeW, SendResp.notConnected, false) ∧
    WWeb.send exConnectedW (some "acct1") (some "15551234567") (some "hi")
        true = (exConnectedW, SendResp.sendFailed, true) ∧
    (Baileys.send exMidHandshakeB (some "acct1") (some "15551234567")
        (some "hi") true).2.2 = true ∧
    (Baileys.send exMidHandshakeB (some "acct1") (some "15551234567")
        (some "hi") true).1 = exMidHandshakeB :=
  ⟨c4_send_guards.1 exMidHandshakeW "acct1" "15551234567" "hi" false
      (by decide) (by decide) (by decide)
      (Or.inr ⟨⟨0, none⟩, by decide, rfl⟩),
   c4_send_guards.2.1 exConnectedW "acct1" "15551234567" "hi"
      ⟨0, some "15551234567"⟩ "15551234567"
      (by decide) (by decide) (by decide) (by decide) rfl,
   (c4_send_guards.2.2.2 exMidHandshakeB "acct1" "15551234567" "hi" ⟨0⟩ true
      (by decide) (by decide) (by decide) (by decide)).1,
   (c4_send_guards.2.2.2 exMidHandshakeB "acct1" "15551234567" "hi" ⟨0⟩ true
      (by decide) (by decide) (by decide) (by decide)).2⟩

/-- C5 counterexample: in the Baileys variant, a disconnect whose
`sock.logout()` rejects answers 500 and leaves the session in the registry,
so disconnect does not always end with the session removed. -/
theorem c5_baileys_disconnect_logout_failure_keeps_session :
    (Baileys.disconnect exConnectedB (some "acct1") true).2 =
      DisconnectResp.failed ∧
    mapHas (Baileys.disconnect exConnectedB (some "acct1") true).1.sessions
      "acct1" = true := by
  decide

/-- C5 (amended): in the whatsapp-web.js variant, disconnect awaits the full
cleanup sequence before responding — the response is paired with exactly the
post-cleanup state — and always ends with the client removed from the
registry, for any session state (mid-handshake included) and any combination
of step failures.  In the Baileys variant, the session is removed whenever
`sock.logout()` resolves, but when it rejects the route answers 500 and the
session remains registered. -/
theorem c5_disconnect_behavior :
    (∀ (s : WWeb.WWebState) (aid : String) (f : CleanupFailures),
      aid.isEmpty = false →
      WWeb.disconnect s (some aid) f =
        ((WWeb.cleanup s f aid).1, DisconnectResp.success) ∧
      mapGet (WWeb.disconnect s (some aid) f).1.whatsappClients aid = none) ∧
    (∀ (s : Baileys.BState) (aid : String),
      mapGet (Baileys.disconnect s (some aid) false).1.sessions aid = none) ∧
    (∀ (s : Baileys.BState) (aid : String) (sock : Baileys.Sock),
      mapGet s.sessions aid = some sock →
      Baileys.disconnect s (some aid) true = (s, DisconnectResp.failed)) := by
  refine ⟨?_, ?_, ?_⟩
  · intro s aid f hne
    have hd : WWeb.disconnect s (some aid) f =
        ((WWeb.cleanup s f aid).1, DisconnectResp.success) := by
      simp [WWeb.disconnect, truthyStr, jsStringOf, hne]
    refine ⟨hd, ?_⟩
    rw [hd]
    rw [(cleanup_state_proj s f aid).1]
    exact mapGet_delete_self _ _
  · intro s aid
    unfold Baileys.disconnect
    simp only [jsStringOf]
    cases hget : mapGet s.sessions aid with
    | none => simp [hget]
    | some sock => simp [hget, mapGet_delete_self]
  · intro s aid sock hget
    simp [Baileys.disconnect, jsStringOf, hget]

/-- C5 witness: the amended statement applied to concrete states — a
mid-handshake whatsapp-web.js session with a failing logout during cleanup,
and a Baileys session whose logout resolves. -/
theorem c5_witness :
    WWeb.disconnect exMidHandshakeW (some "acct1") ⟨true, false, false⟩ =
      ((WWeb.cleanup exMidHandshakeW ⟨true, false, false⟩ "acct1").1,
        DisconnectResp.success) ∧
    mapGet (WWeb.disconnect exMidHandshakeW (some "acct1")
        ⟨true, false, false⟩).1.whatsappClients "acct1" = none ∧
    mapGet (Baileys.disconnect exConnectedB (some "acct1")
        false).1.sessions "acct1" = none ∧
    Baileys.disconnect exConnectedB (some "acct1") true =
      (exConnectedB, DisconnectResp.failed) :=
  ⟨(c5_disconnect_behavior.1 exMidHandshakeW "acct1" ⟨true, false, false⟩
      (by decide)).1,
   (c5_disconnect_behavior.1 exMidHandshakeW "acct1" ⟨true, false, false⟩
      (by decide)).2,
   c5_disconnect_behavior.2.1 exConnectedB "acct1",
   c5_disconnect_behavior.2.2 exConnectedB "acct1" ⟨0⟩ (by decide)⟩

/-- C6 counterexample: the teardown in `src/unnamed/part_000` does not
execute the claimed step sequence — its `cleanup` performs no protocol
logout at all (the call is commented out in that source) and no settling
delays; the trace starts directly at the transport destroy. -/
theorem c6_part000_cleanup_lacks_logout :
    (WWeb.cleanupPart000 exConnectedW ⟨false, false, false⟩ "acct1").2.1 =
      [CleanupStep.destroy, CleanupStep.removeClient, CleanupStep.removeQr,
       CleanupStep.resetStatus, CleanupStep.deleteCreds] ∧
    CleanupStep.logout ∉
      (WWeb.cleanupPart000 exConnectedW ⟨false, false, false⟩ "acct1").2.1 := by
  decide

/-- C6 (amended): the `src/server.js` cleanup executes, for a teardown with a
live client, exactly the ordered trace logout, 3000 ms settling delay,
destroy, 2500 ms settling delay, registry removal, QR removal, status reset,
credential deletion — for every combination of step failures, so no failure
aborts the sequence and every later step still runs.  A logout failure is
logged; a credential-deletion failure is logged; a destroy failure is
swallowed silently by an empty catch block.  The disconnected notification
is fired by the callers of cleanup, not by cleanup itself.  The part_000
cleanup runs destroy, registry removal, QR removal, status reset, credential
deletion, with no logout step and no settling delays. -/
theorem c6_cleanup_order_tolerance :
    (∀ (s : WWeb.WWebState) (f : CleanupFailures) (aid : String),
      mapHas s.whatsappClients aid = true →
      (WWeb.cleanup s f aid).2.1 =
        [CleanupStep.logout, CleanupStep.settle 3000, CleanupStep.destroy,
         CleanupStep.settle 2500, CleanupStep.removeClient,
         CleanupStep.removeQr, CleanupStep.resetStatus,
         CleanupStep.deleteCreds] ∧
      mapGet (WWeb.cleanup s f aid).1.whatsappClients aid = none ∧
      mapGet (WWeb.cleanup s f aid).1.qrCodes aid = none ∧
      mapGet (WWeb.cleanup s f aid).1.connectionStatus aid =
        some ⟨false, none, false⟩ ∧
      ((LogEntry.logoutFailed ∈ (WWeb.cleanup s f aid).2.2) ↔
        f.logoutFails = true) ∧
      ((LogEntry.rmFailed ∈ (WWeb.cleanup s f aid).2.2) ↔
        (f.rmFails = true ∧ aid ∈ s.credDirs))) ∧
    (∀ (s : WWeb.WWebState) (f : CleanupFailures) (aid : String),
      mapHas s.whatsappClients aid = true →
      (WWeb.cleanupPart000 s f aid).2.1 =
        [CleanupStep.destroy, CleanupStep.removeClient, CleanupStep.removeQr,
         CleanupStep.resetStatus, CleanupStep.deleteCreds]) := by
  constructor
  · intro s f aid h
    obtain ⟨lf, df, rf⟩ := f
    by_cases hmem : aid ∈ s.credDirs <;> cases lf <;> cases rf <;>
      simp [WWeb.cleanup, h, hmem, mapGet_delete_self, mapGet_set_self]
  · intro s f aid h
    obtain ⟨lf, df, rf⟩ := f
    by_cases hmem : aid ∈ s.credDirs <;> cases rf <;>
      simp [WWeb.cleanupPart000, h, hmem]

/-- C6 witness: the amended statement applied to a concrete state with a live
client and credential directory, with logout and credential deletion both
failing. -/
theorem c6_witness :
    (WWeb.cleanup exConnectedW ⟨true, false, true⟩ "acct1").2.1 =
      [CleanupStep.logout, CleanupStep.settle 3000, CleanupStep.destroy,
       CleanupStep.settle 2500, CleanupStep.removeClient,
       CleanupStep.removeQr, CleanupStep.resetStatus,
       CleanupStep.deleteCreds] ∧
    ((LogEntry.rmFailed ∈
        (WWeb.cleanup exConnectedW ⟨true, false, true⟩ "acct1").2.2) ↔
      (true = true ∧ "acct1" ∈ exConnectedW.credDirs)) ∧
    (WWeb.cleanupPart000 exConnectedW ⟨true, false, true⟩ "acct1").2.1 =
      [CleanupStep.destroy, CleanupStep.removeClient, CleanupStep.removeQr,
       CleanupStep.resetStatus, CleanupStep.deleteCreds] :=
  ⟨(c6_cleanup_order_tolerance.1 exConnectedW ⟨true, false, true⟩ "acct1"
      (by decide)).1,
   (c6_cleanup_order_tolerance.1 exConnectedW ⟨true, false, true⟩ "acct1"
      (by decide)).2.2.2.2.2,
   c6_cleanup_order_tolerance.2 exConnectedW ⟨true, false, true⟩ "acct1"
      (by decide)⟩

/-- C7 (confirmed): for an account id unknown to the registry (no client or
session, no QR entry, no status entry), the status route of both variants
answers with a success code carrying the default disconnected shape: qr null,
connected false, phone null (and authenticating false). -/
theorem c7_status_unknown_default :
    (∀ (s : WWeb.WWebState) (cid : String), cid.isEmpty = false →
      mapGet s.whatsappClients cid = none →
      mapGet s.qrCodes cid = none →
      mapGet s.connectionStatus cid = none →
      WWeb.status s (some cid) = some ⟨none, false, false, none⟩) ∧
    (∀ (s : Baileys.BState) (cid : String), cid.isEmpty = false →
      mapGet s.sessions cid = none →
      mapGet s.qrCodes cid = none →
      mapGet s.connectionStatus cid = none →
      Baileys.status s (some cid) = some ⟨none, false, false, none⟩) := by
  constructor
  · intro s cid hne h1 h2 h3
    simp [WWeb.status, truthyStr, jsStringOf, hne, h1, h2, h3]
  · intro s cid hne h1 h2 h3
    simp [Baileys.status, truthyStr, jsStringOf, mapHas, hne, h1, h2, h3]

/-- C7 witness: the status route applied to fresh process states and an
account id never seen. -/
theorem c7_witness :
    WWeb.status WWeb.WWebState.init (some "acct1") =
      some ⟨none, false, false, none⟩ ∧
    Baileys.status Baileys.BState.init (some "acct1") =
      some ⟨none, false, false, none⟩ :=
  ⟨c7_status_unknown_default.1 WWeb.WWebState.init "acct1"
      (by decide) rfl rfl rfl,
   c7_status_unknown_default.2 Baileys.BState.init "acct1"
      (by decide) rfl rfl rfl⟩

/-- C8 counterexample: the retry timer does not re-check the registry.  From
a state in which the account was already removed (an explicit disconnect
raced the close event), the timer callback still calls `startSession` and
the registry contains the account again: the deliberately terminated session
is resurrected. -/
theorem c8_retry_resurrects_terminated_session :
    mapHas Baileys.BState.init.sessions "acct1" = false ∧
    mapHas (Baileys.retryTimerFire Baileys.BState.init "acct1").sessions
      "acct1" = true := by
  decide

/-- C8 (amended): the retry timer callback is `() => startSession(clientId)`
and performs no registry check whatsoever: even when the account id is
absent from the registry at the moment the timer fires, a fresh socket is
constructed and registered. -/
theorem c8_retry_fires_unconditionally :
    ∀ (s : Baileys.BState) (cid : String),
      mapHas s.sessions cid = false →
      mapHas (Baileys.retryTimerFire s cid).sessions cid = true ∧
      (Baileys.retryTimerFire s cid).nextInstanceId = s.nextInstanceId + 1 := by
  intro s cid h
  constructor
  · simp [Baileys.retryTimerFire, Baileys.startSession, mapHas,
      mapGet_set_self]
  · rfl

/-- C8 witness: the amended statement applied to a fresh registry. -/
theorem c8_witness :
    mapHas (Baileys.retryTimerFire Baileys.BState.init "acct1").sessions
      "acct1" = true ∧
    (Baileys.retryTimerFire Baileys.BState.init "acct1").nextInstanceId = 1 :=
  ⟨(c8_retry_fires_unconditionally Baileys.BState.init "acct1" (by decide)).1,
   (c8_retry_fires_unconditionally Baileys.BState.init "acct1" (by decide)).2⟩

/-- C10 (confirmed): after either cleanup completes for an account id, the
client map and the QR map contain no entry for it, while the
connection-status map still contains an entry for it, reset to the default
disconnected record rather than deleted; every status entry for any other
account is retained unchanged — so the status map keeps one entry for each
distinct account ever torn down. -/
theorem c10_cleanup_status_entry_retained :
    ∀ (s : WWeb.WWebState) (f : CleanupFailures) (aid : String),
      mapGet (WWeb.cleanup s f aid).1.whatsappClients aid = none ∧
      mapGet (WWeb.cleanup s f aid).1.qrCodes aid = none ∧
      mapGet (WWeb.cleanup s f aid).1.connectionStatus aid =
        some ⟨false, none, false⟩ ∧
      (∀ other, other ≠ aid →
        mapGet (WWeb.cleanup s f aid).1.connectionStatus other =
          mapGet s.connectionStatus other) ∧
      mapGet (WWeb.cleanupPart000 s f aid).1.whatsappClients aid = none ∧
      mapGet (WWeb.cleanupPart000 s f aid).1.qrCodes aid = none ∧
      mapGet (WWeb.cleanupPart000 s f aid).1.connectionStatus aid =
        some ⟨false, none, false⟩ ∧
      (∀ other, other ≠ aid →
        mapGet (WWeb.cleanupPart000 s f aid).1.connectionStatus other =
          mapGet s.connectionStatus other) := by
  intro s f aid
  obtain ⟨h1, h2, h3, -⟩ := cleanup_state_proj s f aid
  obtain ⟨g1, g2, g3, -⟩ := cleanupPart000_state_proj s f aid
  refine ⟨?_, ?_, ?_, ?_, ?_, ?_, ?_, ?_⟩
  · rw [h1]; exact mapGet_delete_self _ _
  · rw [h2]; exact mapGet_delete_self _ _
  · rw [h3]; exact mapGet_set_self _ _ _
  · intro other hne
    rw [h3, mapGet_set, if_neg (fun h => hne h.symm)]
  · rw [g1]; exact mapGet_delete_self _ _
  · rw [g2]; exact mapGet_delete_self _ _
  · rw [g3]; exact mapGet_set_self _ _ _
  · intro other hne
    rw [g3, mapGet_set, if_neg (fun h => hne h.symm)]

/-- C10 witness: applied to the connected example state, checking both the
reset entry for the torn-down account and the retention of an unrelated
lookup. -/
theorem c10_witness :
    mapGet (WWeb.cleanup exConnectedW ⟨false, false, false⟩
        "acct1").1.connectionStatus "acct1" = some ⟨false, none, false⟩ ∧
    mapGet (WWeb.cleanup exConnectedW ⟨false, false, false⟩
        "acct1").1.connectionStatus "other" =
      mapGet exConnectedW.connectionStatus "other" :=
  ⟨(c10_cleanup_status_entry_retained exConnectedW ⟨false, false, false⟩
      "acct1").2.2.1,
   (c10_cleanup_status_entry_retained exConnectedW ⟨false, false, false⟩
      "acct1").2.2.2.1 "other" (by decide)⟩

theorem connect_qr_proj (s : WWeb.WWebState) (aid : Option String) :
    (WWeb.connect s aid).1.qrCodes = s.qrCodes ∧
    (WWeb.connect s aid).1.receivedRaws = s.receivedRaws := by
  unfold WWeb.connect WWeb.createClient
  dsimp only
  split
  · exact ⟨rfl, rfl⟩
  · split
    · split
      · exact ⟨rfl, rfl⟩
      · exact ⟨rfl, rfl⟩
    · exact ⟨rfl, rfl⟩

theorem onReady_qr_proj (s : WWeb.WWebState) (cid : String)
    (ph : Option String) :
    (WWeb.onReady s cid ph).qrCodes = mapDelete s.qrCodes cid ∧
    (WWeb.onReady s cid ph).receivedRaws = s.receivedRaws :=
  ⟨rfl, rfl⟩

/-- Invariant behind C9: every value stored in the QR map is the rendering by
`toDataURL` of some raw payload previously received from the transport. -/
def QrInv (s : WWeb.WWebState) : Prop :=
  ∀ cid v, mapGet s.qrCodes cid = some v →
    ∃ r, r ∈ s.receivedRaws ∧ v = toDataURL r

theorem qrInv_cleanup (s : WWeb.WWebState) (f : CleanupFailures)
    (aid : String) : QrInv s → QrInv (WWeb.cleanup s f aid).1 := by
  intro hinv cid v hget
  obtain ⟨-, hq, -, hr⟩ := cleanup_state_proj s f aid
  rw [hq, mapGet_delete] at hget
  rw [hr]
  by_cases h : aid = cid
  · rw [if_pos h] at hget; cases hget
  · rw [if_neg h] at hget
    exact hinv cid v hget

theorem qrInv_step (s : WWeb.WWebState) (e : WWeb.WEvent) :
    QrInv s → QrInv (WWeb.stepEvent s e) := by
  intro hinv
  cases e with
  | connectReq aid =>
      dsimp [WWeb.stepEvent]
      intro cid v hget
      rw [(connect_qr_proj s aid).1] at hget
      rw [(connect_qr_proj s aid).2]
      exact hinv cid v hget
  | qrEv aid raw =>
      dsimp [WWeb.stepEvent, WWeb.onQr]
      intro cid v hget
      rw [mapGet_set] at hget
      by_cases h : aid = cid
      · rw [if_pos h] at hget
        injection hget with hv
        exact ⟨raw, by simp, hv.symm⟩
      · rw [if_neg h] at hget
        obtain ⟨r, hmem, hvr⟩ := hinv cid v hget
        exact ⟨r, by simp [hmem], hvr⟩
  | readyEv aid ph =>
      dsimp [WWeb.stepEvent]
      intro cid v hget
      rw [(onReady_qr_proj s aid ph).1, mapGet_delete] at hget
      rw [(onReady_qr_proj s aid ph).2]
      by_cases h : aid = cid
      · rw [if_pos h] at hget; cases hget
      · rw [if_neg h] at hget
        exact hinv cid v hget
  | authEv aid =>
      dsimp [WWeb.stepEvent, WWeb.onAuthenticated]
      intro cid v hget
      exact hinv cid v hget
  | authFailureEv aid f =>
      exact qrInv_cleanup s f aid hinv
  | disconnectedEv aid f =>
      exact qrInv_cleanup s f aid hinv
  | disconnectReq aid f =>
      dsimp [WWeb.stepEvent, WWeb.disconnect]
      split
      · exact hinv
      · exact qrInv_cleanup s f (jsStringOf aid) hinv

theorem qrInv_run (evs : List WWeb.WEvent) :
    ∀ s : WWeb.WWebState, QrInv s → QrInv (WWeb.runEvents s evs) := by
  induction evs with
  | nil => intro s h; exact h
  | cons e rest ih =>
      intro s h
      simp only [WWeb.runEvents]
      exact ih _ (qrInv_step s e h)

/-- C9 (confirmed): over every sequence of events and requests, the qr field
the status route exposes for any account is either null or the image
rendering (data URL produced by `toDataURL`) of a raw payload received from
the transport; the rendering always differs from the raw scannable value, so
the raw value itself never crosses the HTTP boundary through the qr field. -/
theorem c9_qr_rendered :
    ∀ (evs : List WWeb.WEvent) (cid : String) (resp : StatusResp),
      WWeb.status (WWeb.runEvents WWeb.WWebState.init evs) (some cid) =
        some resp →
      resp.qr = none ∨
      ∃ r, r ∈ (WWeb.runEvents WWeb.WWebState.init evs).receivedRaws ∧
        resp.qr = some (toDataURL r) ∧ toDataURL r ≠ r := by
  intro evs cid resp hresp
  have hinv : QrInv (WWeb.runEvents WWeb.WWebState.init evs) :=
    qrInv_run evs _ (by
      intro c v h
      simp [WWeb.WWebState.init, mapGet] at h)
  unfold WWeb.status at hresp
  by_cases ht : truthyStr (some cid) = false
  · rw [if_pos ht] at hresp; cases hresp
  · rw [if_neg ht] at hresp
    dsimp only at hresp
    injection hresp with hresp
    have hq : resp.qr =
        mapGet (WWeb.runEvents WWeb.WWebState.init evs).qrCodes cid := by
      rw [← hresp]
      rfl
    cases hget :
        mapGet (WWeb.runEvents WWeb.WWebState.init evs).qrCodes cid with
    | none => exact Or.inl (by rw [hq, hget])
    | some v =>
        obtain ⟨r, hmem, hvr⟩ := hinv cid v hget
        exact Or.inr ⟨r, hmem, by rw [hq, hget, hvr], toDataURL_ne r⟩

/-- Event sequence for the C9 witness: a connect followed by a raw QR payload
from the transport. -/
def c9Events : List WWeb.WEvent :=
  [WWeb.WEvent.connectReq (some "acct1"),
   WWeb.WEvent.qrEv "acct1" "RAWPAYLOAD"]

/-- Status response observed after `c9Events`. -/
def c9Resp : StatusResp :=
  ⟨some (toDataURL "RAWPAYLOAD"), false, false, none⟩

/-- C9 witness: after a connect and a QR event the status route exposes the
rendered data URL, never the raw payload. -/
theorem c9_witness :
    WWeb.status (WWeb.runEvents WWeb.WWebState.init c9Events) (some "acct1") =
      some c9Resp ∧
    (c9Resp.qr = none ∨
      ∃ r, r ∈ (WWeb.runEvents WWeb.WWebState.init c9Events).receivedRaws ∧
        c9Resp.qr = some (toDataURL r) ∧ toDataURL r ≠ r) :=
  ⟨by decide, c9_qr_rendered c9Events "acct1" c9Resp (by decide)⟩

end Wasender
